import Mathlib

/-!
Verification of the SVG-flattening core (`svg-flatten` module): the tree
flattener `processTree`, the coordinate resolver `getCoordinates`, and the
orchestrator `convert`, embedded shallowly from the JavaScript source.

Modelling conventions:
* DOM nodes are the mutual inductive `XNode`/`XNodeList` (element children are
  the only node list the walk recurses into; text nodes carry `nodeType ≠ 1`).
* `getAttribute` returns `""` for a missing attribute, exactly as the `xmldom`
  DOM implementation does.
* The `svgpath` transform collaborator (`new SvgPath(d).transform(t).toString()`)
  is an abstract parameter `compose : String → String → String`.
* JavaScript numbers appearing in the coordinate resolver are modelled as
  `JSVal` (`undef`, `nan`, or an exact rational `JSNum`), with JS truthiness
  and `<`.  `JSNum` is an unnormalised numerator/denominator pair (the
  denominator is a positive power of ten by construction); the source never
  compares numbers for equality — it only tests sign and zero, both of which
  are representation-independent.
* The lodash/JS-object accumulators `ignoredTags`/`ignoredAttrs` (objects used
  as insertion-ordered key sets) are `List String` with `insertKey`.
-/

/-- The quiet tags whose subtrees the walk never visits (source lines 7-12). -/
def quietTags (t : String) : Bool :=
  (["desc", "title", "metadata", "defs"]).contains t

/-- The denylist of presentation/behavior/semantic attribute names
(source lines 14-97, `notQuietAtts`). -/
def notQuietAtts (a : String) : Bool :=
  ([
    "requiredFeatures", "requiredExtensions", "systemLanguage",
    "xml:base", "xml:lang", "xml:space",
    "onfocusin", "onfocusout", "onactivate", "onclick", "onmousedown",
    "onmouseup", "onmouseover", "onmousemove", "onmouseout", "onload",
    "alignment-baseline", "baseline-shift", "clip", "clip-path", "clip-rule",
    "color", "color-interpolation", "color-interpolation-filters",
    "color-profile", "color-rendering", "cursor", "direction", "display",
    "dominant-baseline", "enable-background", "fill", "fill-opacity",
    "fill-rule", "filter", "flood-color", "flood-opacity", "font-family",
    "font-size", "font-size-adjust", "font-stretch", "font-style",
    "font-variant", "font-weight", "glyph-orientation-horizontal",
    "glyph-orientation-vertical", "image-rendering", "kerning",
    "letter-spacing", "lighting-color", "marker-end", "marker-mid",
    "marker-start", "mask", "opacity", "overflow", "pointer-events",
    "shape-rendering", "stop-color", "stop-opacity", "stroke",
    "stroke-dasharray", "stroke-dashoffset", "stroke-linecap",
    "stroke-linejoin", "stroke-miterlimit", "stroke-opacity", "stroke-width",
    "text-anchor", "text-decoration", "text-rendering", "unicode-bidi",
    "visibility", "word-spacing", "writing-mode", "class", "style",
    "externalResourcesRequired", "pathLength", "externalResourcesRequired"
  ]).contains a

mutual
/-- A DOM node: an element (tag name, attribute nodes in document order,
child nodes in document order) or a non-element node (`nodeType ≠ 1`). -/
inductive XNode where
  | element (name : String) (atts : List (String × String)) (children : XNodeList)
  | text (content : String)
/-- An ordered DOM child-node list. -/
inductive XNodeList where
  | nil
  | cons (head : XNode) (tail : XNodeList)
end

/-- DOM attribute lookup by name; `xmldom`'s `getAttribute` yields `""` when
the attribute is absent. -/
def lookupAttr : List (String × String) → String → String
  | [], _ => ""
  | (an, av) :: rest, key => if an = key then av else lookupAttr rest key

/-- `node.getAttribute(key)`. -/
def XNode.getAttribute : XNode → String → String
  | XNode.element _ atts _, key => lookupAttr atts key
  | XNode.text _, _ => ""

/-- `node.childNodes`. -/
def XNode.childNodes : XNode → XNodeList
  | XNode.element _ _ c => c
  | XNode.text _ => XNodeList.nil

/-- `node.attributes` (empty for non-elements). -/
def XNode.attNodes : XNode → List (String × String)
  | XNode.element _ atts _ => atts
  | XNode.text _ => []

/-- `obj[key] = true` on a JS object used as an insertion-ordered key set. -/
def insertKey (l : List String) (k : String) : List String :=
  if k ∈ l then l else l ++ [k]

/-- The record returned by `processTree`
(`{ path, ignoredTags, ignoredAttrs, guaranteed }`, source line 152). -/
structure PTRes where
  path : String
  ignoredTags : List String
  ignoredAttrs : List String
  guaranteed : Bool
deriving Repr, DecidableEq

/-- Source lines 139-141: the ambiguous-merge rule. `guaranteed` becomes
`false` when both the running accumulator and the new transformed path are
non-empty, and is untouched otherwise. -/
def mergeRule (path transformedPath : String) (guaranteed : Bool) : Bool :=
  if path ≠ "" ∧ transformedPath ≠ "" then false else guaranteed

/-- Source lines 144-149: the loop over `item.attributes`; each denylisted
attribute name clears `guaranteed` and is recorded into `ignoredAttrs`. -/
def processAtts (guaranteed : Bool) (ignoredAttrs : List String) :
    List (String × String) → Bool × List String
  | [] => (guaranteed, ignoredAttrs)
  | (an, _) :: rest =>
    if notQuietAtts an then processAtts false (insertKey ignoredAttrs an) rest
    else processAtts guaranteed ignoredAttrs rest

/-- Source lines 110-112: the effective transform context of an element
(`item.getAttribute('transform') ? parentTransforms + ' ' + ... : parentTransforms`). -/
def effTransforms (transformAttr parentTransforms : String) : String :=
  if transformAttr ≠ "" then parentTransforms ++ (" ") ++ transformAttr
  else parentTransforms

/-- Source lines 101-150: the `_.each(node.childNodes, ...)` loop of
`processTree`, with the loop state (`ignoredTags`, `ignoredAttrs`, `path`,
`guaranteed`) threaded explicitly.  `compose d t` stands for
`new SvgPath(d).transform(t).toString()`. -/
def processChildren (compose : String → String → String) :
    XNodeList → List String → List String → String → String → Bool → PTRes
  | XNodeList.nil, ignoredTags, ignoredAttrs, _, path, guaranteed =>
    { path := path, ignoredTags := ignoredTags, ignoredAttrs := ignoredAttrs,
      guaranteed := guaranteed }
  | XNodeList.cons (XNode.text _) rest, ignoredTags, ignoredAttrs,
      parentTransforms, path, guaranteed =>
    processChildren compose rest ignoredTags ignoredAttrs parentTransforms path guaranteed
  | XNodeList.cons (XNode.element name atts children) rest, ignoredTags,
      ignoredAttrs, parentTransforms, path, guaranteed =>
    if quietTags name then
      processChildren compose rest ignoredTags ignoredAttrs parentTransforms path guaranteed
    else
      let transforms := effTransforms (lookupAttr atts ("transform")) parentTransforms
      if name = ("g") then
        let r := processChildren compose children ignoredTags ignoredAttrs transforms path true
        let transformedPath := compose ("") transforms
        let guaranteed1 := mergeRule r.path transformedPath (guaranteed && r.guaranteed)
        let pa := processAtts guaranteed1 r.ignoredAttrs atts
        processChildren compose rest r.ignoredTags pa.2 parentTransforms
          (r.path ++ transformedPath) pa.1
      else if name = ("path") then
        let transformedPath := compose (lookupAttr atts ("d")) transforms
        let guaranteed1 := mergeRule path transformedPath guaranteed
        let pa := processAtts guaranteed1 ignoredAttrs atts
        processChildren compose rest ignoredTags pa.2 parentTransforms
          (path ++ transformedPath) pa.1
      else
        processChildren compose rest (insertKey ignoredTags name) ignoredAttrs
          parentTransforms path guaranteed

/-- Source lines 99-153: `processTree(node, ignoredTags, ignoredAttrs,
parentTransforms, path)` starts with `guaranteed = true` and folds the
element children of `node`. -/
def processTree (compose : String → String → String) (node : XNode)
    (ignoredTags ignoredAttrs : List String)
    (parentTransforms path : String) : PTRes :=
  processChildren compose node.childNodes ignoredTags ignoredAttrs
    parentTransforms path true

/-- An exact finite JS number: numerator and (positive, power-of-ten by
construction) denominator, not normalised. -/
structure JSNum where
  intNum : Int
  posDen : Nat
deriving Repr, DecidableEq

/-- A JavaScript value as seen by the coordinate resolver: `undefined`, `NaN`,
or a finite number. -/
inductive JSVal where
  | undef
  | nan
  | num (v : JSNum)
deriving Repr, DecidableEq

/-- JS `<` on such values (cross-multiplied exact comparison); comparisons
involving `undefined`/`NaN` are false. -/
def jsLt : JSVal → JSVal → Bool
  | JSVal.num a, JSVal.num b => decide (a.intNum * (b.posDen : Int) < b.intNum * (a.posDen : Int))
  | _, _ => false

/-- JS truthiness: `undefined`, `NaN` and `0` are falsy. -/
def truthy : JSVal → Bool
  | JSVal.num v => if v.intNum = 0 then false else true
  | _ => false

/-- JS `v || 0`: the value itself when truthy, the literal `0` otherwise. -/
def orZero : JSVal → JSNum
  | JSVal.num v => if v.intNum = 0 then { intNum := 0, posDen := 1 } else v
  | _ => { intNum := 0, posDen := 1 }

/-- Decimal digit run to a natural number. -/
def digitsToNat (l : List Char) : Nat :=
  l.foldl (fun acc c => 10 * acc + (c.toNat - ('0').toNat)) 0

/-- Exponent part after `e`/`E` in a float literal; a malformed exponent is
ignored (JS `parseFloat` stops before it), giving exponent 0. -/
def parseExpPart (l : List Char) : Int :=
  let sgn : Int := match l with | '-' :: _ => -1 | _ => 1
  let l1 : List Char := match l with | '-' :: r => r | '+' :: r => r | _ => l
  let ds := l1.takeWhile Char.isDigit
  if ds = [] then 0 else sgn * (digitsToNat ds : Int)

/-- Scale a number by a (possibly negative) power of ten, staying exact. -/
def applyExp (e : Int) (v : JSNum) : JSNum :=
  match e with
  | Int.ofNat k => { intNum := v.intNum * ((10 ^ k : Nat) : Int), posDen := v.posDen }
  | Int.negSucc k => { intNum := v.intNum, posDen := v.posDen * 10 ^ (k + 1) }

/-- Longest decimal-literal prefix (`[+-]? digits [. digits]? [eE exp]?`);
`none` when no digit is found. -/
def parseFloatCore (l : List Char) : Option JSNum :=
  let neg : Bool := match l with | '-' :: _ => true | _ => false
  let l1 : List Char := match l with | '-' :: r => r | '+' :: r => r | _ => l
  let ip := l1.takeWhile Char.isDigit
  let l2 := l1.dropWhile Char.isDigit
  let fp : List Char := match l2 with | '.' :: r => r.takeWhile Char.isDigit | _ => []
  let l3 : List Char := match l2 with | '.' :: r => r.dropWhile Char.isDigit | _ => l2
  if ip = [] ∧ fp = [] then none
  else
    let mantNum : Nat := digitsToNat ip * 10 ^ fp.length + digitsToNat fp
    let mantInt : Int := if neg then -(mantNum : Int) else (mantNum : Int)
    let e : Int := match l3 with
      | 'e' :: r => parseExpPart r
      | 'E' :: r => parseExpPart r
      | _ => 0
    some (applyExp e { intNum := mantInt, posDen := 10 ^ fp.length })

/-- JS whitespace skipped by `parseFloat`. -/
def jsWhitespace (c : Char) : Bool :=
  c == ' ' || c == '\t' || c == '\n' || c == '\r'

/-- The JS `parseFloat` collaborator (ECMA-262 decimal-literal prefix parse,
without the `Infinity` literals): `NaN` when no numeric prefix exists. -/
def parseFloatJS (s : String) : JSVal :=
  match parseFloatCore (s.data.dropWhile jsWhitespace) with
  | some v => JSVal.num v
  | none => JSVal.nan

/-- Scanner state for splitting on the separator `(?: *, *| +)`:
inside a token, inside a comma-less space run, or past a comma (consuming its
trailing spaces). -/
inductive SepSt where
  | tok
  | sep
  | sepComma
deriving Repr, DecidableEq

/-- One-pass model of `String.prototype.split(/(?: *, *| +)/g)`: a space or a
comma ends the current token; a space run absorbs at most one following comma
and that comma's trailing spaces; a second comma yields an empty token. -/
def splitGo : SepSt → List Char → List String → List Char → List String
  | _, cur, acc, [] => acc ++ [String.mk cur.reverse]
  | SepSt.tok, cur, acc, c :: rest =>
    if c = ',' then splitGo SepSt.sepComma [] (acc ++ [String.mk cur.reverse]) rest
    else if c = ' ' then splitGo SepSt.sep [] (acc ++ [String.mk cur.reverse]) rest
    else splitGo SepSt.tok (c :: cur) acc rest
  | SepSt.sep, _, acc, c :: rest =>
    if c = ',' then splitGo SepSt.sepComma [] acc rest
    else if c = ' ' then splitGo SepSt.sep [] acc rest
    else splitGo SepSt.tok [c] acc rest
  | SepSt.sepComma, _, acc, c :: rest =>
    if c = ',' then splitGo SepSt.sepComma [] (acc ++ [String.mk []]) rest
    else if c = ' ' then splitGo SepSt.sepComma [] acc rest
    else splitGo SepSt.tok [c] acc rest

/-- `s.split(/(?: *, *| +)/g)` (source line 157). -/
def jsSplit (s : String) : List String := splitGo SepSt.tok [] [] s.data

/-- The error kinds produced by the conversion (source: `new Error(...)` sites
and the XML parser's error channel). -/
inductive ConvError where
  | xmlParse (msg : String)
  | viewBoxMalformed
  | negativeSize
  | missingSize
deriving Repr, DecidableEq

/-- The object returned by `getCoordinates`; the early error returns carry
only `error`, every other field reading as `undefined` (here: defaults). -/
structure CoordResult where
  x : JSNum := { intNum := 0, posDen := 1 }
  y : JSNum := { intNum := 0, posDen := 1 }
  width : JSVal := JSVal.undef
  height : JSVal := JSVal.undef
  error : Option ConvError := none
deriving Repr, DecidableEq

/-- JS array indexing: out-of-range reads give `undefined`. -/
def listGetJS (l : List JSVal) (i : Nat) : JSVal := l.getD i JSVal.undef

/-- The JS number literal `0`. -/
def jsZero : JSVal := JSVal.num { intNum := 0, posDen := 1 }

/-- Source lines 170-176: read one of `x`/`y`/`width`/`height`; a value that
is empty or ends in `%` stays absent, anything else is `parseFloat`-ed. -/
def readSizeAttr (svg : XNode) (key : String) : JSVal :=
  let val := svg.getAttribute key
  match val.data.reverse with
  | [] => JSVal.undef
  | c :: _ => if c = '%' then JSVal.undef else parseFloatJS val

/-- Source lines 155-211: `getCoordinates(svg)`. -/
def getCoordinates (svg : XNode) : CoordResult :=
  let viewBoxAttr := svg.getAttribute ("viewBox")
  let viewBox := (jsSplit viewBoxAttr).map parseFloatJS
  if viewBoxAttr ≠ "" ∧ viewBox.length < 4 then
    { error := some ConvError.viewBoxMalformed }
  else
    let aw := readSizeAttr svg ("width")
    let ah := readSizeAttr svg ("height")
    if jsLt (listGetJS viewBox 2) jsZero || jsLt (listGetJS viewBox 3) jsZero
        || jsLt aw jsZero || jsLt ah jsZero then
      { error := some ConvError.negativeSize }
    else
      let result : CoordResult :=
        { x := orZero (readSizeAttr svg ("x")), y := orZero (readSizeAttr svg ("y")),
          width := aw, height := ah, error := none }
      if viewBoxAttr = "" then
        if truthy result.width && truthy result.height then result
        else { result with error := some ConvError.missingSize }
      else
        if !truthy result.width && !truthy result.height then
          { result with width := listGetJS viewBox 2, height := listGetJS viewBox 3 }
        else result

/-- The record returned by `convert` (source lines 215-225 defaults). -/
structure GlyphRecord where
  d : String := ""
  width : JSVal := jsZero
  height : JSVal := jsZero
  x : JSVal := jsZero
  y : JSVal := jsZero
  ignoredTags : List String := []
  ignoredAttrs : List String := []
  error : Option ConvError := none
  guaranteed : Bool := false
deriving Repr, DecidableEq

/-- `document.getElementsByTagName(tagName)`: matching elements of the whole
tree in document (preorder) order. -/
def getElementsByTagName (tagName : String) : XNodeList → List XNode
  | XNodeList.nil => []
  | XNodeList.cons (XNode.text _) rest => getElementsByTagName tagName rest
  | XNodeList.cons (XNode.element n a c) rest =>
    (if n = tagName then [XNode.element n a c] else [])
      ++ getElementsByTagName tagName c ++ getElementsByTagName tagName rest

/-- Source lines 213-263: `convert(sourceXml)`.  The XML parser collaborator's
outcome is the `Except` argument (its error channel filled ⇒ `Except.error`).
`none` models the uncaught JS `TypeError` thrown when the document has no
`svg` element (`getElementsByTagName('svg')[0]` is `undefined` and
`processTree` dereferences it). -/
def convert (compose : String → String → String)
    (parsed : Except String XNodeList) : Option GlyphRecord :=
  match parsed with
  | Except.error e => some { error := some (ConvError.xmlParse e) }
  | Except.ok xmlDoc =>
    match (getElementsByTagName ("svg") xmlDoc).head? with
    | none => none
    | some svg =>
      let processed := processTree compose svg [] [] ("") ("")
      let coords := getCoordinates svg
      match coords.error with
      | some e => some { error := some e }
      | none =>
        some { d := processed.path, width := coords.width, height := coords.height,
               x := JSVal.num coords.x, y := JSVal.num coords.y,
               guaranteed := processed.guaranteed,
               ignoredTags := processed.ignoredTags,
               ignoredAttrs := processed.ignoredAttrs, error := none }

/-- Formalisation (from the claim's wording) of a "denylisted attribute" count
on one attribute list. -/
def attrDenyCount (atts : List (String × String)) : Nat :=
  (atts.filter (fun p => notQuietAtts p.1)).length

/-- Formalisation (from the claim's wording) of "denylisted attributes
encountered on visited elements": counts denylisted attribute entries on every
element whose attributes the walk examines (the processed `g`/`path` elements,
outside quiet subtrees). -/
def denyCount : XNodeList → Nat
  | XNodeList.nil => 0
  | XNodeList.cons (XNode.text _) rest => denyCount rest
  | XNodeList.cons (XNode.element name atts children) rest =>
    if quietTags name then denyCount rest
    else if name = ("g") then denyCount children + attrDenyCount atts + denyCount rest
    else if name = ("path") then attrDenyCount atts + denyCount rest
    else denyCount rest

/-- Formalisation (from the claim's wording) of "elements that contributed a
non-empty transformed path": counts processed elements whose composed path
string is non-empty, under the transform context the walk uses for them. -/
def contribCount (compose : String → String → String) : String → XNodeList → Nat
  | _, XNodeList.nil => 0
  | parentTransforms, XNodeList.cons (XNode.text _) rest =>
    contribCount compose parentTransforms rest
  | parentTransforms, XNodeList.cons (XNode.element name atts children) rest =>
    if quietTags name then contribCount compose parentTransforms rest
    else
      let transforms := effTransforms (lookupAttr atts ("transform")) parentTransforms
      if name = ("g") then
        contribCount compose transforms children
          + (if compose ("") transforms ≠ "" then 1 else 0)
          + contribCount compose parentTransforms rest
      else if name = ("path") then
        (if compose (lookupAttr atts ("d")) transforms ≠ "" then 1 else 0)
          + contribCount compose parentTransforms rest
      else contribCount compose parentTransforms rest

/-- Companion to `contribCount`: the concatenation, in walk order, of the
transformed path strings of the processed elements — the exact string the walk
appends to its accumulator. -/
def contribStr (compose : String → String → String) : String → XNodeList → String
  | _, XNodeList.nil => ""
  | parentTransforms, XNodeList.cons (XNode.text _) rest =>
    contribStr compose parentTransforms rest
  | parentTransforms, XNodeList.cons (XNode.element name atts children) rest =>
    if quietTags name then contribStr compose parentTransforms rest
    else
      let transforms := effTransforms (lookupAttr atts ("transform")) parentTransforms
      if name = ("g") then
        contribStr compose transforms children ++ compose ("") transforms
          ++ contribStr compose parentTransforms rest
      else if name = ("path") then
        compose (lookupAttr atts ("d")) transforms ++ contribStr compose parentTransforms rest
      else contribStr compose parentTransforms rest

/-- Formalisation of C5's "numeric tokens obtained from splitting and parsing
as floats": split tokens whose `parseFloat` is not `NaN`. -/
def numericTokenCount (s : String) : Nat :=
  (((jsSplit s).map parseFloatJS).filter
    (fun v => if v = JSVal.nan then false else true)).length

/-- A concrete transform composer for witnesses: returns the path data
unchanged. -/
def composeId : String → String → String := fun d _ => d

/-- Witness document: `<svg width="1" height="1"><path d="M0 0"/></svg>`. -/
def svgOnePath : XNode :=
  XNode.element ("svg") [(("width"), ("1")), (("height"), ("1"))]
    (XNodeList.cons (XNode.element ("path") [(("d"), ("M0 0"))] XNodeList.nil)
      XNodeList.nil)

/-- Witness document list containing `svgOnePath` at the root. -/
def docOnePath : XNodeList := XNodeList.cons svgOnePath XNodeList.nil

/-- C5 counterexample input: `<svg viewBox="1 2 3 x"/>` — four split tokens
but only three numeric ones. -/
def svgVBThreeNumeric : XNode :=
  XNode.element ("svg") [(("viewBox"), ("1 2 3 x"))] XNodeList.nil

/-- C6 counterexample input: `<svg width="0" height="5"/>` — both size
attributes present, but `width` parses to the falsy number 0. -/
def svgZeroWidth : XNode :=
  XNode.element ("svg") [(("width"), ("0")), (("height"), ("5"))] XNodeList.nil

/-- C7 counterexample input: `<svg viewBox="0 0 10 10" width="0"/>` — explicit
`width` present (and falsy), `height` absent. -/
def svgZeroWidthVB : XNode :=
  XNode.element ("svg") [(("viewBox"), ("0 0 10 10")), (("width"), ("0"))] XNodeList.nil

/-- C8 counterexample input: two unknown tags encountered in non-alphabetical
document order. -/
def docUnsorted : XNodeList :=
  XNodeList.cons
    (XNode.element ("svg") [(("width"), ("1")), (("height"), ("1"))]
      (XNodeList.cons (XNode.element ("zebra") [] XNodeList.nil)
        (XNodeList.cons (XNode.element ("apple") [] XNodeList.nil) XNodeList.nil)))
    XNodeList.nil

/-- Witness document with no `svg` element anywhere. -/
def docNoSvg : XNodeList :=
  XNodeList.cons (XNode.element ("root") []
    (XNodeList.cons (XNode.element ("child") [] XNodeList.nil) XNodeList.nil)) XNodeList.nil

/-- Witness document whose root `svg` has no viewBox and no sizes. -/
def docNoSize : XNodeList :=
  XNodeList.cons (XNode.element ("svg") [] XNodeList.nil) XNodeList.nil

theorem str_eq_empty_iff_data (s : String) : s = "" ↔ s.data = [] := by
  rw [String.ext_iff]

theorem strApp_eq_empty (a b : String) : a ++ b = "" ↔ a = "" ∧ b = "" := by
  rw [str_eq_empty_iff_data, str_eq_empty_iff_data, str_eq_empty_iff_data,
    String.data_append, List.append_eq_nil]

theorem strApp_assoc (a b c : String) : a ++ b ++ c = a ++ (b ++ c) := by
  apply String.ext
  simp only [String.data_append, List.append_assoc]

theorem insertKey_mem_of_mem (l : List String) (k a : String) (h : a ∈ l) :
    a ∈ insertKey l k := by
  unfold insertKey
  split
  · exact h
  · exact List.mem_append_left _ h

theorem insertKey_self_mem (l : List String) (k : String) : k ∈ insertKey l k := by
  unfold insertKey
  split
  · assumption
  · simp

theorem insertKey_nodup (l : List String) (k : String) (h : l.Nodup) :
    (insertKey l k).Nodup := by
  unfold insertKey
  split
  · exact h
  · rename_i hk
    simp [List.nodup_append, h, hk]

theorem processAtts_false_fst (ia : List String) (l : List (String × String)) :
    (processAtts false ia l).1 = false := by
  induction l generalizing ia with
  | nil => rfl
  | cons p rest ih =>
    obtain ⟨an, av⟩ := p
    unfold processAtts
    split
    · exact ih _
    · exact ih _

theorem processAtts_mem (g : Bool) (ia : List String) (l : List (String × String))
    (a : String) (h : a ∈ ia) : a ∈ (processAtts g ia l).2 := by
  induction l generalizing g ia with
  | nil => exact h
  | cons p rest ih =>
    obtain ⟨an, av⟩ := p
    unfold processAtts
    split
    · exact ih _ _ (insertKey_mem_of_mem _ _ _ h)
    · exact ih _ _ h

theorem processAtts_deny (g : Bool) (ia : List String) (l : List (String × String))
    (an av : String) (hmem : (an, av) ∈ l) (hd : notQuietAtts an = true) :
    (processAtts g ia l).1 = false ∧ an ∈ (processAtts g ia l).2 := by
  induction l generalizing g ia with
  | nil => cases hmem
  | cons p rest ih =>
    obtain ⟨bn, bv⟩ := p
    rcases List.mem_cons.mp hmem with heq | hmem2
    · cases heq
      unfold processAtts
      rw [if_pos hd]
      exact ⟨processAtts_false_fst _ _,
        processAtts_mem _ _ _ _ (insertKey_self_mem _ _)⟩
    · unfold processAtts
      split
      · exact ih _ _ hmem2
      · exact ih _ _ hmem2

theorem processAtts_true_fst (g : Bool) (ia : List String) (l : List (String × String))
    (h : (processAtts g ia l).1 = true) : g = true ∧ attrDenyCount l = 0 := by
  induction l generalizing g ia with
  | nil => exact ⟨h, rfl⟩
  | cons p rest ih =>
    obtain ⟨an, av⟩ := p
    unfold processAtts at h
    by_cases hd : notQuietAtts an = true
    · rw [if_pos hd] at h
      rw [processAtts_false_fst] at h
      cases h
    · rw [if_neg hd] at h
      obtain ⟨hg, hc⟩ := ih _ _ h
      refine ⟨hg, ?_⟩
      simp only [attrDenyCount, List.filter_cons] at hc ⊢
      simp only [Bool.not_eq_true] at hd
      simp [hd, hc]

theorem processAtts_nodup (g : Bool) (ia : List String) (l : List (String × String))
    (h : ia.Nodup) : (processAtts g ia l).2.Nodup := by
  induction l generalizing g ia with
  | nil => exact h
  | cons p rest ih =>
    obtain ⟨an, av⟩ := p
    unfold processAtts
    split
    · exact ih _ _ (insertKey_nodup _ _ h)
    · exact ih _ _ h

theorem pc_nil_step (compose : String → String → String) (tags attrs : List String)
    (pT path : String) (g : Bool) :
    processChildren compose XNodeList.nil tags attrs pT path g =
      { path := path, ignoredTags := tags, ignoredAttrs := attrs, guaranteed := g } := rfl

theorem pc_text_step (compose : String → String → String) (content : String)
    (rest : XNodeList) (tags attrs : List String) (pT path : String) (g : Bool) :
    processChildren compose (XNodeList.cons (XNode.text content) rest) tags attrs pT path g =
      processChildren compose rest tags attrs pT path g := rfl

theorem pc_quiet_step (compose : String → String → String) (name : String)
    (atts : List (String × String)) (children rest : XNodeList)
    (tags attrs : List String) (pT path : String) (g : Bool)
    (hq : quietTags name = true) :
    processChildren compose (XNodeList.cons (XNode.element name atts children) rest)
        tags attrs pT path g =
      processChildren compose rest tags attrs pT path g := by
  simp only [processChildren]
  rw [if_pos hq]

theorem pc_g_step (compose : String → String → String)
    (atts : List (String × String)) (children rest : XNodeList)
    (tags attrs : List String) (pT path : String) (g : Bool) :
    processChildren compose (XNodeList.cons (XNode.element ("g") atts children) rest)
        tags attrs pT path g =
      (let transforms := effTransforms (lookupAttr atts ("transform")) pT
       let r := processChildren compose children tags attrs transforms path true
       let transformedPath := compose ("") transforms
       let pa := processAtts (mergeRule r.path transformedPath (g && r.guaranteed))
         r.ignoredAttrs atts
       processChildren compose rest r.ignoredTags pa.2 pT
         (r.path ++ transformedPath) pa.1) := by
  simp only [processChildren]
  rw [if_neg (by decide)]
  simp only [if_true]

theorem pc_path_step (compose : String → String → String)
    (atts : List (String × String)) (children rest : XNodeList)
    (tags attrs : List String) (pT path : String) (g : Bool) :
    processChildren compose (XNodeList.cons (XNode.element ("path") atts children) rest)
        tags attrs pT path g =
      (let transforms := effTransforms (lookupAttr atts ("transform")) pT
       let transformedPath := compose (lookupAttr atts ("d")) transforms
       let pa := processAtts (mergeRule path transformedPath g) attrs atts
       processChildren compose rest tags pa.2 pT (path ++ transformedPath) pa.1) := by
  simp only [processChildren]
  rw [if_neg (by decide)]
  simp only [if_true]
  rw [if_neg (by decide)]

theorem pc_other_step (compose : String → String → String) (name : String)
    (atts : List (String × String)) (children rest : XNodeList)
    (tags attrs : List String) (pT path : String) (g : Bool)
    (hq : quietTags name = false) (hg : name ≠ ("g")) (hp : name ≠ ("path")) :
    processChildren compose (XNodeList.cons (XNode.element name atts children) rest)
        tags attrs pT path g =
      processChildren compose rest (insertKey tags name) attrs pT path g := by
  simp only [processChildren]
  rw [if_neg (by simp [hq]), if_neg hg, if_neg hp]

theorem mergeRule_of_false (p t : String) : mergeRule p t false = false := by
  unfold mergeRule
  split <;> rfl

theorem mergeRule_eq_true (p t : String) (g : Bool) (h : mergeRule p t g = true) :
    g = true ∧ (p = "" ∨ t = "") := by
  unfold mergeRule at h
  split at h
  · cases h
  · rename_i hcond
    refine ⟨h, ?_⟩
    by_cases hp : p = ""
    · exact Or.inl hp
    · by_cases ht : t = ""
      · exact Or.inr ht
      · exact absurd ⟨hp, ht⟩ hcond


theorem str_append_empty (s : String) : s ++ "" = s := by
  apply String.ext
  simp [String.data_append]

theorem cs_nil (compose : String → String → String) (pT : String) :
    contribStr compose pT XNodeList.nil = "" := rfl

theorem cs_text (compose : String → String → String) (pT content : String)
    (rest : XNodeList) :
    contribStr compose pT (XNodeList.cons (XNode.text content) rest) =
      contribStr compose pT rest := rfl

theorem cs_quiet (compose : String → String → String) (pT name : String)
    (atts : List (String × String)) (children rest : XNodeList)
    (hq : quietTags name = true) :
    contribStr compose pT (XNodeList.cons (XNode.element name atts children) rest) =
      contribStr compose pT rest := by
  simp only [contribStr]
  rw [if_pos hq]

theorem cs_g (compose : String → String → String) (pT : String)
    (atts : List (String × String)) (children rest : XNodeList) :
    contribStr compose pT (XNodeList.cons (XNode.element ("g") atts children) rest) =
      (let transforms := effTransforms (lookupAttr atts ("transform")) pT
       contribStr compose transforms children ++ compose ("") transforms
         ++ contribStr compose pT rest) := by
  simp only [contribStr]
  rw [if_neg (by decide)]
  simp only [if_true]

theorem cs_path (compose : String → String → String) (pT : String)
    (atts : List (String × String)) (children rest : XNodeList) :
    contribStr compose pT (XNodeList.cons (XNode.element ("path") atts children) rest) =
      (let transforms := effTransforms (lookupAttr atts ("transform")) pT
       compose (lookupAttr atts ("d")) transforms ++ contribStr compose pT rest) := by
  simp only [contribStr]
  rw [if_neg (by decide)]
  simp only [if_true]
  rw [if_neg (by decide)]

theorem cs_other (compose : String → String → String) (pT name : String)
    (atts : List (String × String)) (children rest : XNodeList)
    (hq : quietTags name = false) (hg : name ≠ ("g")) (hp : name ≠ ("path")) :
    contribStr compose pT (XNodeList.cons (XNode.element name atts children) rest) =
      contribStr compose pT rest := by
  simp only [contribStr]
  rw [if_neg (by simp [hq]), if_neg hg, if_neg hp]

theorem cc_nil (compose : String → String → String) (pT : String) :
    contribCount compose pT XNodeList.nil = 0 := rfl

theorem cc_text (compose : String → String → String) (pT content : String)
    (rest : XNodeList) :
    contribCount compose pT (XNodeList.cons (XNode.text content) rest) =
      contribCount compose pT rest := rfl

theorem cc_quiet (compose : String → String → String) (pT name : String)
    (atts : List (String × String)) (children rest : XNodeList)
    (hq : quietTags name = true) :
    contribCount compose pT (XNodeList.cons (XNode.element name atts children) rest) =
      contribCount compose pT rest := by
  simp only [contribCount]
  rw [if_pos hq]

theorem cc_g (compose : String → String → String) (pT : String)
    (atts : List (String × String)) (children rest : XNodeList) :
    contribCount compose pT (XNodeList.cons (XNode.element ("g") atts children) rest) =
      (let transforms := effTransforms (lookupAttr atts ("transform")) pT
       contribCount compose transforms children
         + (if compose ("") transforms ≠ "" then 1 else 0)
         + contribCount compose pT rest) := by
  simp only [contribCount]
  rw [if_neg (by decide)]
  simp only [if_true]

theorem cc_path (compose : String → String → String) (pT : String)
    (atts : List (String × String)) (children rest : XNodeList) :
    contribCount compose pT (XNodeList.cons (XNode.element ("path") atts children) rest) =
      (let transforms := effTransforms (lookupAttr atts ("transform")) pT
       (if compose (lookupAttr atts ("d")) transforms ≠ "" then 1 else 0)
         + contribCount compose pT rest) := by
  simp only [contribCount]
  rw [if_neg (by decide)]
  simp only [if_true]
  rw [if_neg (by decide)]

theorem cc_other (compose : String → String → String) (pT name : String)
    (atts : List (String × String)) (children rest : XNodeList)
    (hq : quietTags name = false) (hg : name ≠ ("g")) (hp : name ≠ ("path")) :
    contribCount compose pT (XNodeList.cons (XNode.element name atts children) rest) =
      contribCount compose pT rest := by
  simp only [contribCount]
  rw [if_neg (by simp [hq]), if_neg hg, if_neg hp]

theorem dc_nil : denyCount XNodeList.nil = 0 := rfl

theorem dc_text (content : String) (rest : XNodeList) :
    denyCount (XNodeList.cons (XNode.text content) rest) = denyCount rest := rfl

theorem dc_quiet (name : String) (atts : List (String × String))
    (children rest : XNodeList) (hq : quietTags name = true) :
    denyCount (XNodeList.cons (XNode.element name atts children) rest) = denyCount rest := by
  simp only [denyCount]
  rw [if_pos hq]

theorem dc_g (atts : List (String × String)) (children rest : XNodeList) :
    denyCount (XNodeList.cons (XNode.element ("g") atts children) rest) =
      denyCount children + attrDenyCount atts + denyCount rest := by
  simp only [denyCount]
  rw [if_neg (by decide)]
  simp only [if_true]

theorem dc_path (atts : List (String × String)) (children rest : XNodeList) :
    denyCount (XNodeList.cons (XNode.element ("path") atts children) rest) =
      attrDenyCount atts + denyCount rest := by
  simp only [denyCount]
  rw [if_neg (by decide)]
  simp only [if_true]
  rw [if_neg (by decide)]

theorem dc_other (name : String) (atts : List (String × String))
    (children rest : XNodeList) (hq : quietTags name = false) (hg : name ≠ ("g"))
    (hp : name ≠ ("path")) :
    denyCount (XNodeList.cons (XNode.element name atts children) rest) = denyCount rest := by
  simp only [denyCount]
  rw [if_neg (by simp [hq]), if_neg hg, if_neg hp]

theorem pc_path_eq (compose : String → String → String) :
    ∀ (items : XNodeList) (tags attrs : List String) (pT path : String) (g : Bool),
      (processChildren compose items tags attrs pT path g).path
        = path ++ contribStr compose pT items
  | XNodeList.nil, tags, attrs, pT, path, g => by
    rw [pc_nil_step, cs_nil, str_append_empty]
  | XNodeList.cons (XNode.text c) rest, tags, attrs, pT, path, g => by
    rw [pc_text_step, cs_text]
    exact pc_path_eq compose rest tags attrs pT path g
  | XNodeList.cons (XNode.element name atts children) rest, tags, attrs, pT, path, g => by
    by_cases hq : quietTags name = true
    · rw [pc_quiet_step _ _ _ _ _ _ _ _ _ _ hq, cs_quiet _ _ _ _ _ _ hq]
      exact pc_path_eq compose rest tags attrs pT path g
    · have hq' : quietTags name = false := by simpa using hq
      by_cases hgn : name = ("g")
      · subst hgn
        rw [pc_g_step, cs_g]
        simp only []
        rw [pc_path_eq compose rest, pc_path_eq compose children]
        simp only [strApp_assoc]
      · by_cases hpn : name = ("path")
        · subst hpn
          rw [pc_path_step, cs_path]
          simp only []
          rw [pc_path_eq compose rest]
          simp only [strApp_assoc]
        · rw [pc_other_step _ _ _ _ _ _ _ _ _ _ hq' hgn hpn,
            cs_other _ _ _ _ _ _ hq' hgn hpn]
          exact pc_path_eq compose rest (insertKey tags name) attrs pT path g

theorem contribStr_empty_iff (compose : String → String → String) :
    ∀ (pT : String) (items : XNodeList),
      (contribStr compose pT items = "" ↔ contribCount compose pT items = 0)
  | pT, XNodeList.nil => by simp [cs_nil, cc_nil]
  | pT, XNodeList.cons (XNode.text c) rest => by
    rw [cs_text, cc_text]
    exact contribStr_empty_iff compose pT rest
  | pT, XNodeList.cons (XNode.element name atts children) rest => by
    by_cases hq : quietTags name = true
    · rw [cs_quiet _ _ _ _ _ _ hq, cc_quiet _ _ _ _ _ _ hq]
      exact contribStr_empty_iff compose pT rest
    · have hq' : quietTags name = false := by simpa using hq
      by_cases hgn : name = ("g")
      · subst hgn
        rw [cs_g, cc_g]
        simp only []
        rw [strApp_eq_empty, strApp_eq_empty,
          contribStr_empty_iff compose _ children, contribStr_empty_iff compose pT rest]
        by_cases hb : compose ("") (effTransforms (lookupAttr atts ("transform")) pT) = ""
        · simp only [hb]
          simp
        · simp only [hb]
          simp [hb]
      · by_cases hpn : name = ("path")
        · subst hpn
          rw [cs_path, cc_path]
          simp only []
          rw [strApp_eq_empty, contribStr_empty_iff compose pT rest]
          by_cases hb : compose (lookupAttr atts ("d"))
              (effTransforms (lookupAttr atts ("transform")) pT) = ""
          · simp [hb]
          · simp [hb]
        · rw [cs_other _ _ _ _ _ _ hq' hgn hpn, cc_other _ _ _ _ _ _ hq' hgn hpn]
          exact contribStr_empty_iff compose pT rest

theorem pc_guaranteed_false (compose : String → String → String) :
    ∀ (items : XNodeList) (tags attrs : List String) (pT path : String),
      (processChildren compose items tags attrs pT path false).guaranteed = false
  | XNodeList.nil, tags, attrs, pT, path => by rw [pc_nil_step]
  | XNodeList.cons (XNode.text c) rest, tags, attrs, pT, path => by
    rw [pc_text_step]
    exact pc_guaranteed_false compose rest tags attrs pT path
  | XNodeList.cons (XNode.element name atts children) rest, tags, attrs, pT, path => by
    by_cases hq : quietTags name = true
    · rw [pc_quiet_step _ _ _ _ _ _ _ _ _ _ hq]
      exact pc_guaranteed_false compose rest tags attrs pT path
    · have hq' : quietTags name = false := by simpa using hq
      by_cases hgn : name = ("g")
      · subst hgn
        rw [pc_g_step]
        simp only [Bool.false_and, mergeRule_of_false, processAtts_false_fst]
        exact pc_guaranteed_false compose rest _ _ pT _
      · by_cases hpn : name = ("path")
        · subst hpn
          rw [pc_path_step]
          simp only [mergeRule_of_false, processAtts_false_fst]
          exact pc_guaranteed_false compose rest _ _ pT _
        · rw [pc_other_step _ _ _ _ _ _ _ _ _ _ hq' hgn hpn]
          exact pc_guaranteed_false compose rest _ attrs pT path

theorem pc_attrs_mono (compose : String → String → String) :
    ∀ (items : XNodeList) (tags attrs : List String) (pT path : String) (g : Bool)
      (a : String), a ∈ attrs →
      a ∈ (processChildren compose items tags attrs pT path g).ignoredAttrs
  | XNodeList.nil, tags, attrs, pT, path, g => fun a h => by
    rw [pc_nil_step]
    exact h
  | XNodeList.cons (XNode.text c) rest, tags, attrs, pT, path, g => fun a h => by
    rw [pc_text_step]
    exact pc_attrs_mono compose rest tags attrs pT path g a h
  | XNodeList.cons (XNode.element name atts children) rest, tags, attrs, pT, path, g =>
    fun a h => by
    by_cases hq : quietTags name = true
    · rw [pc_quiet_step _ _ _ _ _ _ _ _ _ _ hq]
      exact pc_attrs_mono compose rest tags attrs pT path g a h
    · have hq' : quietTags name = false := by simpa using hq
      by_cases hgn : name = ("g")
      · subst hgn
        rw [pc_g_step]
        simp only []
        exact pc_attrs_mono compose rest _ _ pT _ _ a
          (processAtts_mem _ _ _ a
            (pc_attrs_mono compose children tags attrs _ path true a h))
      · by_cases hpn : name = ("path")
        · subst hpn
          rw [pc_path_step]
          simp only []
          exact pc_attrs_mono compose rest tags _ pT _ _ a (processAtts_mem _ _ _ a h)
        · rw [pc_other_step _ _ _ _ _ _ _ _ _ _ hq' hgn hpn]
          exact pc_attrs_mono compose rest _ attrs pT path g a h

theorem pc_tags_mono (compose : String → String → String) :
    ∀ (items : XNodeList) (tags attrs : List String) (pT path : String) (g : Bool)
      (a : String), a ∈ tags →
      a ∈ (processChildren compose items tags attrs pT path g).ignoredTags
  | XNodeList.nil, tags, attrs, pT, path, g => fun a h => by
    rw [pc_nil_step]
    exact h
  | XNodeList.cons (XNode.text c) rest, tags, attrs, pT, path, g => fun a h => by
    rw [pc_text_step]
    exact pc_tags_mono compose rest tags attrs pT path g a h
  | XNodeList.cons (XNode.element name atts children) rest, tags, attrs, pT, path, g =>
    fun a h => by
    by_cases hq : quietTags name = true
    · rw [pc_quiet_step _ _ _ _ _ _ _ _ _ _ hq]
      exact pc_tags_mono compose rest tags attrs pT path g a h
    · have hq' : quietTags name = false := by simpa using hq
      by_cases hgn : name = ("g")
      · subst hgn
        rw [pc_g_step]
        simp only []
        exact pc_tags_mono compose rest _ _ pT _ _ a
          (pc_tags_mono compose children tags attrs _ path true a h)
      · by_cases hpn : name = ("path")
        · subst hpn
          rw [pc_path_step]
          simp only []
          exact pc_tags_mono compose rest tags _ pT _ _ a h
        · rw [pc_other_step _ _ _ _ _ _ _ _ _ _ hq' hgn hpn]
          exact pc_tags_mono compose rest _ attrs pT path g a
            (insertKey_mem_of_mem _ _ _ h)

theorem pc_tags_nodup (compose : String → String → String) :
    ∀ (items : XNodeList) (tags attrs : List String) (pT path : String) (g : Bool),
      tags.Nodup → (processChildren compose items tags attrs pT path g).ignoredTags.Nodup
  | XNodeList.nil, tags, attrs, pT, path, g => fun h => by
    rw [pc_nil_step]
    exact h
  | XNodeList.cons (XNode.text c) rest, tags, attrs, pT, path, g => fun h => by
    rw [pc_text_step]
    exact pc_tags_nodup compose rest tags attrs pT path g h
  | XNodeList.cons (XNode.element name atts children) rest, tags, attrs, pT, path, g =>
    fun h => by
    by_cases hq : quietTags name = true
    · rw [pc_quiet_step _ _ _ _ _ _ _ _ _ _ hq]
      exact pc_tags_nodup compose rest tags attrs pT path g h
    · have hq' : quietTags name = false := by simpa using hq
      by_cases hgn : name = ("g")
      · subst hgn
        rw [pc_g_step]
        simp only []
        exact pc_tags_nodup compose rest _ _ pT _ _
          (pc_tags_nodup compose children tags attrs _ path true h)
      · by_cases hpn : name = ("path")
        · subst hpn
          rw [pc_path_step]
          simp only []
          exact pc_tags_nodup compose rest tags _ pT _ _ h
        · rw [pc_other_step _ _ _ _ _ _ _ _ _ _ hq' hgn hpn]
          exact pc_tags_nodup compose rest _ attrs pT path g (insertKey_nodup _ _ h)

theorem pc_attrs_nodup (compose : String → String → String) :
    ∀ (items : XNodeList) (tags attrs : List String) (pT path : String) (g : Bool),
      attrs.Nodup → (processChildren compose items tags attrs pT path g).ignoredAttrs.Nodup
  | XNodeList.nil, tags, attrs, pT, path, g => fun h => by
    rw [pc_nil_step]
    exact h
  | XNodeList.cons (XNode.text c) rest, tags, attrs, pT, path, g => fun h => by
    rw [pc_text_step]
    exact pc_attrs_nodup compose rest tags attrs pT path g h
  | XNodeList.cons (XNode.element name atts children) rest, tags, attrs, pT, path, g =>
    fun h => by
    by_cases hq : quietTags name = true
    · rw [pc_quiet_step _ _ _ _ _ _ _ _ _ _ hq]
      exact pc_attrs_nodup compose rest tags attrs pT path g h
    · have hq' : quietTags name = false := by simpa using hq
      by_cases hgn : name = ("g")
      · subst hgn
        rw [pc_g_step]
        simp only []
        exact pc_attrs_nodup compose rest _ _ pT _ _
          (processAtts_nodup _ _ _
            (pc_attrs_nodup compose children tags attrs _ path true h))
      · by_cases hpn : name = ("path")
        · subst hpn
          rw [pc_path_step]
          simp only []
          exact pc_attrs_nodup compose rest tags _ pT _ _ (processAtts_nodup _ _ _ h)
        · rw [pc_other_step _ _ _ _ _ _ _ _ _ _ hq' hgn hpn]
          exact pc_attrs_nodup compose rest _ attrs pT path g h

theorem merge_count_bound (path TP : String) (ccr : Nat)
    (hccr : ccr ≤ if (path ++ TP) = "" then 1 else 0)
    (hdisj : path = "" ∨ TP = "") :
    (if TP ≠ "" then 1 else 0) + ccr ≤ if path = "" then 1 else 0 := by
  simp only [strApp_eq_empty] at hccr
  by_cases hpath : path = ""
  · by_cases hTP : TP = ""
    · rw [if_pos ⟨hpath, hTP⟩] at hccr
      rw [if_pos hpath, if_neg (by simp [hTP])]
      omega
    · rw [if_neg (by simp [hTP])] at hccr
      rw [if_pos hpath, if_pos hTP]
      omega
  · have hTP : TP = "" := hdisj.resolve_left hpath
    rw [if_neg (by simp [hpath])] at hccr
    rw [if_neg hpath, if_neg (by simp [hTP])]
    omega

theorem merge_count_bound_g (path cstr TP : String) (ccc ccr : Nat)
    (hiff : cstr = "" ↔ ccc = 0)
    (hccc : ccc ≤ if path = "" then 1 else 0)
    (hccr : ccr ≤ if ((path ++ cstr) ++ TP) = "" then 1 else 0)
    (hdisj : (path ++ cstr) = "" ∨ TP = "") :
    ccc + (if TP ≠ "" then 1 else 0) + ccr ≤ if path = "" then 1 else 0 := by
  simp only [strApp_eq_empty] at hccr hdisj
  by_cases hpath : path = ""
  · rw [if_pos hpath] at hccc ⊢
    by_cases hTP : TP = ""
    · by_cases hcs : cstr = ""
      · have hc0 : ccc = 0 := hiff.mp hcs
        rw [if_pos ⟨⟨hpath, hcs⟩, hTP⟩] at hccr
        rw [if_neg (by simp [hTP])]
        omega
      · rw [if_neg (by simp [hcs])] at hccr
        rw [if_neg (by simp [hTP])]
        omega
    · have hpc : path = "" ∧ cstr = "" := hdisj.resolve_right hTP
      have hc0 : ccc = 0 := hiff.mp hpc.2
      rw [if_neg (by simp [hTP])] at hccr
      rw [if_pos hTP]
      omega
  · rw [if_neg hpath] at hccc ⊢
    have hTP : TP = "" := by
      rcases hdisj with hx | hx
      · exact absurd hx.1 hpath
      · exact hx
    rw [if_neg (by simp [hpath])] at hccr
    rw [if_neg (by simp [hTP])]
    omega

theorem pc_guaranteed_true (compose : String → String → String) :
    ∀ (items : XNodeList) (tags attrs : List String) (pT path : String) (g : Bool),
      (processChildren compose items tags attrs pT path g).guaranteed = true →
        g = true ∧ denyCount items = 0 ∧
          contribCount compose pT items ≤ (if path = "" then 1 else 0)
  | XNodeList.nil, tags, attrs, pT, path, g => fun h => by
    rw [pc_nil_step] at h
    refine ⟨h, by rw [dc_nil], ?_⟩
    rw [cc_nil]
    exact Nat.zero_le _
  | XNodeList.cons (XNode.text c) rest, tags, attrs, pT, path, g => fun h => by
    rw [pc_text_step] at h
    rw [dc_text, cc_text]
    exact pc_guaranteed_true compose rest tags attrs pT path g h
  | XNodeList.cons (XNode.element name atts children) rest, tags, attrs, pT, path, g =>
    fun h => by
    by_cases hq : quietTags name = true
    · rw [pc_quiet_step _ _ _ _ _ _ _ _ _ _ hq] at h
      rw [dc_quiet _ _ _ _ hq, cc_quiet _ _ _ _ _ _ hq]
      exact pc_guaranteed_true compose rest tags attrs pT path g h
    · have hq' : quietTags name = false := by simpa using hq
      by_cases hgn : name = ("g")
      · subst hgn
        rw [pc_g_step] at h
        simp only [] at h
        obtain ⟨hPA1, hdcr, hccr⟩ := pc_guaranteed_true compose rest _ _ _ _ _ h
        obtain ⟨hmr, hadc⟩ := processAtts_true_fst _ _ _ hPA1
        obtain ⟨hgand, hdisj⟩ := mergeRule_eq_true _ _ _ hmr
        have hg : g = true := by
          cases g
          · rw [Bool.false_and] at hgand
            cases hgand
          · rfl
        rw [hg, Bool.true_and] at hgand
        obtain ⟨_, hdcc, hccc⟩ := pc_guaranteed_true compose children tags attrs _ path true hgand
        refine ⟨hg, ?_, ?_⟩
        · rw [dc_g]
          omega
        · rw [cc_g]
          simp only []
          rw [pc_path_eq] at hccr hdisj
          exact merge_count_bound_g path _ _ _ _
            (contribStr_empty_iff compose _ children) hccc hccr hdisj
      · by_cases hpn : name = ("path")
        · subst hpn
          rw [pc_path_step] at h
          simp only [] at h
          obtain ⟨hPA1, hdcr, hccr⟩ := pc_guaranteed_true compose rest _ _ _ _ _ h
          obtain ⟨hmr, hadc⟩ := processAtts_true_fst _ _ _ hPA1
          obtain ⟨hg, hdisj⟩ := mergeRule_eq_true _ _ _ hmr
          refine ⟨hg, ?_, ?_⟩
          · rw [dc_path]
            omega
          · rw [cc_path]
            simp only []
            exact merge_count_bound path _ _ hccr hdisj
        · rw [pc_other_step _ _ _ _ _ _ _ _ _ _ hq' hgn hpn] at h
          rw [dc_other _ _ _ _ hq' hgn hpn, cc_other _ _ _ _ _ _ hq' hgn hpn]
          exact pc_guaranteed_true compose rest _ attrs pT path g h

/-- C4: an element with a quiet tag (`desc`, `title`, `metadata`, `defs`) is
skipped together with its entire subtree: processing it is identical to not
having it at all — independently of its attributes and descendants (even a
`path` directly inside), so nothing under it can reach `path`, `ignoredTags`
or `ignoredAttrs`, and the quiet tag itself is not recorded. -/
theorem quiet_subtree_spec (compose : String → String → String) (name : String)
    (atts : List (String × String)) (children rest : XNodeList)
    (tags ias : List String) (pT path : String) (g : Bool)
    (hq : quietTags name = true) :
    processChildren compose (XNodeList.cons (XNode.element name atts children) rest)
        tags ias pT path g =
      processChildren compose rest tags ias pT path g :=
  pc_quiet_step compose name atts children rest tags ias pT path g hq

/-- Witness for C4 at `<defs><path d="M1 1"/></defs>`. -/
theorem quiet_subtree_spec_witness :
    processChildren composeId
      (XNodeList.cons
        (XNode.element ("defs") []
          (XNodeList.cons (XNode.element ("path") [(("d"), ("M1 1"))] XNodeList.nil)
            XNodeList.nil))
        XNodeList.nil) [] [] ("") ("") true =
    processChildren composeId XNodeList.nil [] [] ("") ("") true :=
  quiet_subtree_spec composeId ("defs") []
    (XNodeList.cons (XNode.element ("path") [(("d"), ("M1 1"))] XNodeList.nil) XNodeList.nil)
    XNodeList.nil [] [] ("") ("") true (by decide)

/-- C10: a well-formed document with no `svg` element anywhere makes `convert`
throw instead of returning a record (`getElementsByTagName('svg')[0]` is
`undefined` and `processTree` dereferences it); in the model the thrown
`TypeError` is `none`. -/
theorem no_svg_root_throws (compose : String → String → String) (xmlDoc : XNodeList)
    (h : getElementsByTagName ("svg") xmlDoc = []) :
    convert compose (Except.ok xmlDoc) = none := by
  simp only [convert]
  rw [h]
  rfl

/-- Witness for C10 at `<root><child/></root>`. -/
theorem no_svg_root_throws_witness :
    convert composeId (Except.ok docNoSvg) = none :=
  no_svg_root_throws composeId docNoSvg (by rfl)

/-- C9: a parse error short-circuits `convert` into a record holding only the
error and default fields (the flatten and coordinate phases never observable);
a coordinate-resolver error likewise yields the all-default record carrying
that error, the flatten output being discarded. -/
theorem error_shortcircuit_spec :
    (∀ (compose : String → String → String) (msg : String),
      convert compose (Except.error msg) =
        some { d := "", width := jsZero, height := jsZero, x := jsZero, y := jsZero,
               ignoredTags := [], ignoredAttrs := [],
               error := some (ConvError.xmlParse msg), guaranteed := false })
    ∧ (∀ (compose : String → String → String) (xmlDoc : XNodeList) (svg : XNode)
        (e : ConvError), (getElementsByTagName ("svg") xmlDoc).head? = some svg →
        (getCoordinates svg).error = some e →
        convert compose (Except.ok xmlDoc) =
          some { d := "", width := jsZero, height := jsZero, x := jsZero, y := jsZero,
                 ignoredTags := [], ignoredAttrs := [], error := some e,
                 guaranteed := false }) := by
  constructor
  · intro compose msg
    rfl
  · intro compose xmlDoc svg e hsvg he
    simp only [convert]
    rw [hsvg]
    simp only []
    rw [he]

/-- Witness for C9's coordinate-error part at `<svg/>` (no viewBox, no
sizes, so `MissingSizeError`). -/
theorem error_shortcircuit_spec_witness :
    convert composeId (Except.ok docNoSize) =
      some { d := "", width := jsZero, height := jsZero, x := jsZero, y := jsZero,
             ignoredTags := [], ignoredAttrs := [],
             error := some ConvError.missingSize, guaranteed := false } :=
  error_shortcircuit_spec.2 composeId docNoSize (XNode.element ("svg") [] XNodeList.nil)
    ConvError.missingSize rfl (by decide)

/-- C2: processing a `path` (resp. `g`) element applies the ambiguous-merge
rule to the current accumulator and the element's transformed path, then
concatenates unconditionally; `mergeRule` yields `false` exactly when both
strings are non-empty (or `guaranteed` was already `false`), and an empty
transformed path — or an empty accumulator — never changes `guaranteed` by
itself. -/
theorem processTree_merge_rule_spec :
    (∀ (compose : String → String → String) (atts : List (String × String))
      (children rest : XNodeList) (tags ias : List String) (pT path : String) (g : Bool),
      processChildren compose
          (XNodeList.cons (XNode.element ("path") atts children) rest) tags ias pT path g =
        processChildren compose rest tags
          (processAtts
            (mergeRule path
              (compose (lookupAttr atts ("d")) (effTransforms (lookupAttr atts ("transform")) pT)) g)
            ias atts).2
          pT
          (path ++ compose (lookupAttr atts ("d")) (effTransforms (lookupAttr atts ("transform")) pT))
          (processAtts
            (mergeRule path
              (compose (lookupAttr atts ("d")) (effTransforms (lookupAttr atts ("transform")) pT)) g)
            ias atts).1)
    ∧ (∀ (compose : String → String → String) (atts : List (String × String))
      (children rest : XNodeList) (tags ias : List String) (pT path : String) (g : Bool),
      processChildren compose
          (XNodeList.cons (XNode.element ("g") atts children) rest) tags ias pT path g =
        processChildren compose rest
          (processChildren compose children tags ias
            (effTransforms (lookupAttr atts ("transform")) pT) path true).ignoredTags
          (processAtts
            (mergeRule
              (processChildren compose children tags ias
                (effTransforms (lookupAttr atts ("transform")) pT) path true).path
              (compose ("") (effTransforms (lookupAttr atts ("transform")) pT))
              (g && (processChildren compose children tags ias
                (effTransforms (lookupAttr atts ("transform")) pT) path true).guaranteed))
            (processChildren compose children tags ias
              (effTransforms (lookupAttr atts ("transform")) pT) path true).ignoredAttrs
            atts).2
          pT
          ((processChildren compose children tags ias
              (effTransforms (lookupAttr atts ("transform")) pT) path true).path
            ++ compose ("") (effTransforms (lookupAttr atts ("transform")) pT))
          (processAtts
            (mergeRule
              (processChildren compose children tags ias
                (effTransforms (lookupAttr atts ("transform")) pT) path true).path
              (compose ("") (effTransforms (lookupAttr atts ("transform")) pT))
              (g && (processChildren compose children tags ias
                (effTransforms (lookupAttr atts ("transform")) pT) path true).guaranteed))
            (processChildren compose children tags ias
              (effTransforms (lookupAttr atts ("transform")) pT) path true).ignoredAttrs
            atts).1)
    ∧ (∀ (p tp : String) (g : Bool),
        (mergeRule p tp g = false ↔ (p ≠ "" ∧ tp ≠ "") ∨ g = false))
    ∧ (∀ (p : String) (g : Bool), mergeRule p ("") g = g)
    ∧ (∀ (tp : String) (g : Bool), mergeRule ("") tp g = g) := by
  refine ⟨?_, ?_, ?_, ?_, ?_⟩
  · intro compose atts children rest tags ias pT path g
    rw [pc_path_step]
  · intro compose atts children rest tags ias pT path g
    rw [pc_g_step]
  · intro p tp g
    unfold mergeRule
    split
    · rename_i hc
      simp [hc]
    · rename_i hc
      constructor
      · intro hg
        exact Or.inr hg
      · intro hd
        rcases hd with hd | hd
        · exact absurd hd hc
        · exact hd
  · intro p g
    simp [mergeRule]
  · intro tp g
    simp [mergeRule]

/-- C3: a denylisted attribute on a processed `path` element clears the final
`guaranteed`, records the attribute name in the final `ignoredAttrs`, and
still lets the element's transformed geometry be concatenated; the same
clearing/recording holds on a `g` element; an element with any other
non-quiet tag is only recorded into `ignoredTags` — its attributes and
descendants are never examined. -/
theorem dropped_feature_spec :
    (∀ (compose : String → String → String) (atts : List (String × String))
        (children rest : XNodeList) (tags ias : List String) (pT path : String)
        (g : Bool) (an av : String), (an, av) ∈ atts → notQuietAtts an = true →
        ((processChildren compose
            (XNodeList.cons (XNode.element ("path") atts children) rest)
            tags ias pT path g).guaranteed = false ∧
          an ∈ (processChildren compose
            (XNodeList.cons (XNode.element ("path") atts children) rest)
            tags ias pT path g).ignoredAttrs ∧
          ∃ s, (processChildren compose
            (XNodeList.cons (XNode.element ("path") atts children) rest)
            tags ias pT path g).path =
              path ++ compose (lookupAttr atts ("d"))
                (effTransforms (lookupAttr atts ("transform")) pT) ++ s))
    ∧ (∀ (compose : String → String → String) (atts : List (String × String))
        (children rest : XNodeList) (tags ias : List String) (pT path : String)
        (g : Bool) (an av : String), (an, av) ∈ atts → notQuietAtts an = true →
        ((processChildren compose
            (XNodeList.cons (XNode.element ("g") atts children) rest)
            tags ias pT path g).guaranteed = false ∧
          an ∈ (processChildren compose
            (XNodeList.cons (XNode.element ("g") atts children) rest)
            tags ias pT path g).ignoredAttrs))
    ∧ (∀ (compose : String → String → String) (name : String)
        (atts : List (String × String)) (children rest : XNodeList)
        (tags ias : List String) (pT path : String) (g : Bool),
        quietTags name = false → name ≠ ("g") → name ≠ ("path") →
        processChildren compose
            (XNodeList.cons (XNode.element name atts children) rest) tags ias pT path g =
          processChildren compose rest (insertKey tags name) ias pT path g) := by
  refine ⟨?_, ?_, ?_⟩
  · intro compose atts children rest tags ias pT path g an av hmem hd
    rw [pc_path_step]
    simp only []
    obtain ⟨hf, hm⟩ := processAtts_deny
      (mergeRule path
        (compose (lookupAttr atts ("d")) (effTransforms (lookupAttr atts ("transform")) pT)) g)
      ias atts an av hmem hd
    refine ⟨?_, ?_, ?_⟩
    · rw [hf]
      exact pc_guaranteed_false compose rest _ _ _ _
    · exact pc_attrs_mono compose rest _ _ _ _ _ an hm
    · exact ⟨contribStr compose pT rest, by rw [pc_path_eq]⟩
  · intro compose atts children rest tags ias pT path g an av hmem hd
    rw [pc_g_step]
    simp only []
    obtain ⟨hf, hm⟩ := processAtts_deny
      (mergeRule
        (processChildren compose children tags ias
          (effTransforms (lookupAttr atts ("transform")) pT) path true).path
        (compose ("") (effTransforms (lookupAttr atts ("transform")) pT))
        (g && (processChildren compose children tags ias
          (effTransforms (lookupAttr atts ("transform")) pT) path true).guaranteed))
      (processChildren compose children tags ias
        (effTransforms (lookupAttr atts ("transform")) pT) path true).ignoredAttrs
      atts an av hmem hd
    refine ⟨?_, ?_⟩
    · rw [hf]
      exact pc_guaranteed_false compose rest _ _ _ _
    · exact pc_attrs_mono compose rest _ _ _ _ _ an hm
  · intro compose name atts children rest tags ias pT path g hq hg hp
    exact pc_other_step compose name atts children rest tags ias pT path g hq hg hp

/-- Witness for C3's `path` part at
`<path d="M0 0" fill="red"/>` inside an empty walk state. -/
theorem dropped_feature_spec_witness :
    ((processChildren composeId
        (XNodeList.cons
          (XNode.element ("path") [(("d"), ("M0 0")), (("fill"), ("red"))] XNodeList.nil)
          XNodeList.nil)
        [] [] ("") ("") true).guaranteed = false ∧
      ("fill") ∈ (processChildren composeId
        (XNodeList.cons
          (XNode.element ("path") [(("d"), ("M0 0")), (("fill"), ("red"))] XNodeList.nil)
          XNodeList.nil)
        [] [] ("") ("") true).ignoredAttrs ∧
      ∃ s, (processChildren composeId
        (XNodeList.cons
          (XNode.element ("path") [(("d"), ("M0 0")), (("fill"), ("red"))] XNodeList.nil)
          XNodeList.nil)
        [] [] ("") ("") true).path =
          ("") ++ composeId (lookupAttr [(("d"), ("M0 0")), (("fill"), ("red"))] ("d"))
            (effTransforms
              (lookupAttr [(("d"), ("M0 0")), (("fill"), ("red"))] ("transform")) ("")) ++ s) :=
  dropped_feature_spec.1 composeId [(("d"), ("M0 0")), (("fill"), ("red"))]
    XNodeList.nil XNodeList.nil [] [] ("") ("") true ("fill") ("red")
    (by decide) (by decide)

/-- C1: whenever `convert` succeeds and the returned record has
`guaranteed = true`, no denylisted attribute occurred on any element whose
attributes the walk examined, and at most one element contributed a non-empty
transformed path across the whole tree. -/
theorem convert_guaranteed_sound (compose : String → String → String)
    (xmlDoc : XNodeList) (svg : XNode) (r : GlyphRecord)
    (hsvg : (getElementsByTagName ("svg") xmlDoc).head? = some svg)
    (hconv : convert compose (Except.ok xmlDoc) = some r)
    (hg : r.guaranteed = true) :
    denyCount svg.childNodes = 0 ∧ contribCount compose ("") svg.childNodes ≤ 1 := by
  simp only [convert] at hconv
  rw [hsvg] at hconv
  simp only [] at hconv
  cases hcoord : (getCoordinates svg).error with
  | some e =>
    rw [hcoord] at hconv
    simp only [Option.some.injEq] at hconv
    subst hconv
    cases hg
  | none =>
    rw [hcoord] at hconv
    simp only [Option.some.injEq] at hconv
    subst hconv
    simp only [] at hg
    unfold processTree at hg
    obtain ⟨_, hdc, hcc⟩ :=
      pc_guaranteed_true compose svg.childNodes [] [] ("") ("") true hg
    refine ⟨hdc, ?_⟩
    rw [if_pos rfl] at hcc
    exact hcc

/-- Witness for C1 at `<svg width="1" height="1"><path d="M0 0"/></svg>`. -/
theorem convert_guaranteed_sound_witness :
    denyCount (XNode.childNodes svgOnePath) = 0 ∧
      contribCount composeId ("") (XNode.childNodes svgOnePath) ≤ 1 :=
  convert_guaranteed_sound composeId docOnePath svgOnePath
    { d := "M0 0", width := JSVal.num { intNum := 1, posDen := 1 },
      height := JSVal.num { intNum := 1, posDen := 1 },
      x := JSVal.num { intNum := 0, posDen := 1 },
      y := JSVal.num { intNum := 0, posDen := 1 },
      ignoredTags := [], ignoredAttrs := [], error := none, guaranteed := true }
    (by rfl) (by decide) (by rfl)

/-- C8 counterexample: the returned `ignoredTags` list keeps first-encounter
order, so a document meeting `<zebra/>` before `<apple/>` yields the unsorted
list `["zebra", "apple"]` — the claim's "sorted order" fails here. -/
theorem sorted_lists_claim_counterexample :
    convert composeId (Except.ok docUnsorted) =
      some { d := "", width := JSVal.num { intNum := 1, posDen := 1 },
             height := JSVal.num { intNum := 1, posDen := 1 },
             x := JSVal.num { intNum := 0, posDen := 1 },
             y := JSVal.num { intNum := 0, posDen := 1 },
             ignoredTags := [("zebra"), ("apple")], ignoredAttrs := [],
             error := none, guaranteed := true } ∧
      ¬ List.Sorted (fun a b : String => a ≤ b) [("zebra"), ("apple")] := by
  constructor
  · decide
  · intro hs
    have h2 := List.rel_of_sorted_cons hs ("apple") (by simp)
    rw [String.le_iff_toList_le] at h2
    revert h2
    decide

/-- C8 as amended: for every successful conversion, `ignoredTags` and
`ignoredAttrs` are exactly the walk's accumulated key sets — duplicate-free
lists in first-encounter (insertion) order, not sorted. -/
theorem ignored_lists_spec (compose : String → String → String)
    (xmlDoc : XNodeList) (svg : XNode) (r : GlyphRecord)
    (hsvg : (getElementsByTagName ("svg") xmlDoc).head? = some svg)
    (hconv : convert compose (Except.ok xmlDoc) = some r)
    (herr : r.error = none) :
    r.ignoredTags = (processTree compose svg [] [] ("") ("")).ignoredTags ∧
      r.ignoredAttrs = (processTree compose svg [] [] ("") ("")).ignoredAttrs ∧
      r.ignoredTags.Nodup ∧ r.ignoredAttrs.Nodup := by
  simp only [convert] at hconv
  rw [hsvg] at hconv
  simp only [] at hconv
  cases hcoord : (getCoordinates svg).error with
  | some e =>
    rw [hcoord] at hconv
    simp only [Option.some.injEq] at hconv
    subst hconv
    cases herr
  | none =>
    rw [hcoord] at hconv
    simp only [Option.some.injEq] at hconv
    subst hconv
    refine ⟨rfl, rfl, ?_, ?_⟩
    · exact pc_tags_nodup compose svg.childNodes [] [] ("") ("") true List.nodup_nil
    · exact pc_attrs_nodup compose svg.childNodes [] [] ("") ("") true List.nodup_nil

/-- Witness for the amended C8 at
`<svg width="1" height="1"><path d="M0 0"/></svg>`. -/
theorem ignored_lists_spec_witness :
    (GlyphRecord.mk ("M0 0") (JSVal.num { intNum := 1, posDen := 1 })
        (JSVal.num { intNum := 1, posDen := 1 }) (JSVal.num { intNum := 0, posDen := 1 })
        (JSVal.num { intNum := 0, posDen := 1 }) [] [] none true).ignoredTags =
        (processTree composeId svgOnePath [] [] ("") ("")).ignoredTags ∧
      (GlyphRecord.mk ("M0 0") (JSVal.num { intNum := 1, posDen := 1 })
        (JSVal.num { intNum := 1, posDen := 1 }) (JSVal.num { intNum := 0, posDen := 1 })
        (JSVal.num { intNum := 0, posDen := 1 }) [] [] none true).ignoredAttrs =
        (processTree composeId svgOnePath [] [] ("") ("")).ignoredAttrs ∧
      (GlyphRecord.mk ("M0 0") (JSVal.num { intNum := 1, posDen := 1 })
        (JSVal.num { intNum := 1, posDen := 1 }) (JSVal.num { intNum := 0, posDen := 1 })
        (JSVal.num { intNum := 0, posDen := 1 }) [] [] none true).ignoredTags.Nodup ∧
      (GlyphRecord.mk ("M0 0") (JSVal.num { intNum := 1, posDen := 1 })
        (JSVal.num { intNum := 1, posDen := 1 }) (JSVal.num { intNum := 0, posDen := 1 })
        (JSVal.num { intNum := 0, posDen := 1 }) [] [] none true).ignoredAttrs.Nodup :=
  ignored_lists_spec composeId docOnePath svgOnePath
    (GlyphRecord.mk ("M0 0") (JSVal.num { intNum := 1, posDen := 1 })
      (JSVal.num { intNum := 1, posDen := 1 }) (JSVal.num { intNum := 0, posDen := 1 })
      (JSVal.num { intNum := 0, posDen := 1 }) [] [] none true)
    (by rfl) (by decide) (by rfl)

/-- C5 counterexample: `viewBox="1 2 3 x"` yields only 3 numeric tokens
(fewer than 4), yet `getCoordinates` does not fail — the code counts split
tokens, not numeric ones, so the claim's "exactly when fewer than 4 numeric
tokens" is false at this input. -/
theorem viewbox_numeric_claim_counterexample :
    numericTokenCount (svgVBThreeNumeric.getAttribute ("viewBox")) = 3 ∧
      (getCoordinates svgVBThreeNumeric).error = none := by
  decide

/-- C5 as amended: with a non-empty `viewBox` attribute, `getCoordinates`
fails with `ViewBoxMalformedError` exactly when the comma-or-whitespace split
yields fewer than 4 tokens, whether or not the tokens parse as numbers (an
empty `viewBox` attribute is treated as absent). -/
theorem viewbox_malformed_spec (svg : XNode)
    (hvb : svg.getAttribute ("viewBox") ≠ "") :
    ((getCoordinates svg).error = some ConvError.viewBoxMalformed ↔
      (jsSplit (svg.getAttribute ("viewBox"))).length < 4) := by
  unfold getCoordinates
  simp only []
  by_cases hlen : (jsSplit (svg.getAttribute ("viewBox"))).length < 4
  · rw [if_pos ⟨hvb, by simpa [List.length_map] using hlen⟩]
    simp [hlen]
  · rw [if_neg (fun hc => hlen (by simpa [List.length_map] using hc.2))]
    constructor
    · intro h
      exfalso
      split_ifs at h
      simp_all
    · intro h
      exact absurd h hlen

/-- Witness for the amended C5 at `<svg viewBox="0 0 1"/>`. -/
theorem viewbox_malformed_spec_witness :
    ((getCoordinates (XNode.element ("svg") [(("viewBox"), ("0 0 1"))] XNodeList.nil)).error =
        some ConvError.viewBoxMalformed ↔
      (jsSplit ((XNode.element ("svg") [(("viewBox"), ("0 0 1"))] XNodeList.nil).getAttribute
        ("viewBox"))).length < 4) :=
  viewbox_malformed_spec (XNode.element ("svg") [(("viewBox"), ("0 0 1"))] XNodeList.nil)
    (by decide)

/-- C6 counterexample: `<svg width="0" height="5"/>` has both size attributes
present (no `%`), yet `getCoordinates` fails with `MissingSizeError` because
the parsed `width` 0 is falsy — the claim's "both present ⇒ success" is false
at this input. -/
theorem missing_size_claim_counterexample :
    svgZeroWidth.getAttribute ("width") = ("0") ∧
      svgZeroWidth.getAttribute ("height") = ("5") ∧
      (getCoordinates svgZeroWidth).error = some ConvError.missingSize := by
  decide

/-- C6 as amended: with no (or empty) `viewBox` and no negative parsed size,
`getCoordinates` succeeds with `{x or 0, y or 0, width, height, error: null}`
exactly when both `width` and `height` parse to truthy numbers (non-zero,
non-`NaN`); otherwise it fails with `MissingSizeError` — a present but zero
or non-numeric size counts as missing. -/
theorem no_viewbox_size_spec (svg : XNode)
    (hvb : svg.getAttribute ("viewBox") = "")
    (hnw : jsLt (readSizeAttr svg ("width")) jsZero = false)
    (hnh : jsLt (readSizeAttr svg ("height")) jsZero = false) :
    (truthy (readSizeAttr svg ("width")) = true ∧
        truthy (readSizeAttr svg ("height")) = true →
      getCoordinates svg =
        { x := orZero (readSizeAttr svg ("x")), y := orZero (readSizeAttr svg ("y")),
          width := readSizeAttr svg ("width"), height := readSizeAttr svg ("height"),
          error := none })
    ∧ (¬(truthy (readSizeAttr svg ("width")) = true ∧
          truthy (readSizeAttr svg ("height")) = true) →
      (getCoordinates svg).error = some ConvError.missingSize) := by
  unfold getCoordinates
  simp only []
  rw [hvb]
  rw [if_neg (by simp)]
  rw [if_neg ?hg]
  case hg =>
    intro hc
    rw [hnw, hnh] at hc
    revert hc
    decide
  rw [if_pos rfl]
  constructor
  · intro hwh
    rw [if_pos (by rw [hwh.1, hwh.2]; rfl)]
  · intro hne
    rw [if_neg ?hc]
    case hc =>
      intro hc
      simp only [Bool.and_eq_true] at hc
      exact hne hc

/-- Witness for the amended C6 at `<svg width="24" height="24"/>`. -/
theorem no_viewbox_size_spec_witness :
    (truthy (readSizeAttr (XNode.element ("svg") [(("width"), ("24")), (("height"), ("24"))]
          XNodeList.nil) ("width")) = true ∧
        truthy (readSizeAttr (XNode.element ("svg") [(("width"), ("24")), (("height"), ("24"))]
          XNodeList.nil) ("height")) = true →
      getCoordinates (XNode.element ("svg") [(("width"), ("24")), (("height"), ("24"))]
          XNodeList.nil) =
        { x := orZero (readSizeAttr (XNode.element ("svg")
            [(("width"), ("24")), (("height"), ("24"))] XNodeList.nil) ("x")),
          y := orZero (readSizeAttr (XNode.element ("svg")
            [(("width"), ("24")), (("height"), ("24"))] XNodeList.nil) ("y")),
          width := readSizeAttr (XNode.element ("svg")
            [(("width"), ("24")), (("height"), ("24"))] XNodeList.nil) ("width"),
          height := readSizeAttr (XNode.element ("svg")
            [(("width"), ("24")), (("height"), ("24"))] XNodeList.nil) ("height"),
          error := none })
    ∧ (¬(truthy (readSizeAttr (XNode.element ("svg") [(("width"), ("24")), (("height"), ("24"))]
          XNodeList.nil) ("width")) = true ∧
        truthy (readSizeAttr (XNode.element ("svg") [(("width"), ("24")), (("height"), ("24"))]
          XNodeList.nil) ("height")) = true) →
      (getCoordinates (XNode.element ("svg") [(("width"), ("24")), (("height"), ("24"))]
          XNodeList.nil)).error = some ConvError.missingSize) :=
  no_viewbox_size_spec
    (XNode.element ("svg") [(("width"), ("24")), (("height"), ("24"))] XNodeList.nil)
    (by decide) (by decide) (by decide)

/-- C7 counterexample: `<svg viewBox="0 0 10 10" width="0"/>` sets `width`
explicitly, yet the result's `width` is 10, backfilled from the `viewBox`
(the parsed 0 is falsy) — the claim's "explicit values win and the missing
one is not backfilled" is false at this input. -/
theorem viewbox_backfill_claim_counterexample :
    svgZeroWidthVB.getAttribute ("width") = ("0") ∧
      (getCoordinates svgZeroWidthVB).width = JSVal.num { intNum := 10, posDen := 1 } := by
  decide

/-- C7 as amended: with a well-formed `viewBox` and no negative size, both
`width` and `height` are backfilled from `viewBox[2]`/`viewBox[3]` exactly
when both parse to falsy values (absent, `%`-suffixed, zero or non-numeric);
as soon as one of them is truthy, both keep their raw parsed values with no
backfill; in every branch `x`/`y` come only from the root's own `x`/`y`
attributes (defaulting to 0), never from `viewBox[0]`/`viewBox[1]`. -/
theorem viewbox_resolution_spec (svg : XNode)
    (hvb : svg.getAttribute ("viewBox") ≠ "")
    (hlen : ¬ ((jsSplit (svg.getAttribute ("viewBox"))).length < 4))
    (hguard : (jsLt (listGetJS ((jsSplit (svg.getAttribute ("viewBox"))).map parseFloatJS) 2)
          jsZero
        || jsLt (listGetJS ((jsSplit (svg.getAttribute ("viewBox"))).map parseFloatJS) 3)
          jsZero
        || jsLt (readSizeAttr svg ("width")) jsZero
        || jsLt (readSizeAttr svg ("height")) jsZero) = false) :
    getCoordinates svg =
      if truthy (readSizeAttr svg ("width")) = false ∧
          truthy (readSizeAttr svg ("height")) = false then
        { x := orZero (readSizeAttr svg ("x")), y := orZero (readSizeAttr svg ("y")),
          width := listGetJS ((jsSplit (svg.getAttribute ("viewBox"))).map parseFloatJS) 2,
          height := listGetJS ((jsSplit (svg.getAttribute ("viewBox"))).map parseFloatJS) 3,
          error := none }
      else
        { x := orZero (readSizeAttr svg ("x")), y := orZero (readSizeAttr svg ("y")),
          width := readSizeAttr svg ("width"), height := readSizeAttr svg ("height"),
          error := none } := by
  unfold getCoordinates
  simp only []
  rw [if_neg (fun hc => hlen (by simpa [List.length_map] using hc.2))]
  rw [if_neg (by simp [hguard])]
  rw [if_neg hvb]
  by_cases hw : truthy (readSizeAttr svg ("width")) = false ∧
      truthy (readSizeAttr svg ("height")) = false
  · rw [if_pos (by rw [hw.1, hw.2]; rfl), if_pos hw]
  · rw [if_neg ?hc, if_neg hw]
    case hc =>
      intro hc
      simp only [Bool.and_eq_true, Bool.not_eq_true'] at hc
      exact hw hc

/-- Witness for the amended C7 at `<svg viewBox="0 0 100 50"/>`. -/
theorem viewbox_resolution_spec_witness :
    getCoordinates (XNode.element ("svg") [(("viewBox"), ("0 0 100 50"))] XNodeList.nil) =
      if truthy (readSizeAttr (XNode.element ("svg") [(("viewBox"), ("0 0 100 50"))]
            XNodeList.nil) ("width")) = false ∧
          truthy (readSizeAttr (XNode.element ("svg") [(("viewBox"), ("0 0 100 50"))]
            XNodeList.nil) ("height")) = false then
        { x := orZero (readSizeAttr (XNode.element ("svg") [(("viewBox"), ("0 0 100 50"))]
            XNodeList.nil) ("x")),
          y := orZero (readSizeAttr (XNode.element ("svg") [(("viewBox"), ("0 0 100 50"))]
            XNodeList.nil) ("y")),
          width := listGetJS ((jsSplit ((XNode.element ("svg") [(("viewBox"), ("0 0 100 50"))]
            XNodeList.nil).getAttribute ("viewBox"))).map parseFloatJS) 2,
          height := listGetJS ((jsSplit ((XNode.element ("svg") [(("viewBox"), ("0 0 100 50"))]
            XNodeList.nil).getAttribute ("viewBox"))).map parseFloatJS) 3,
          error := none }
      else
        { x := orZero (readSizeAttr (XNode.element ("svg") [(("viewBox"), ("0 0 100 50"))]
            XNodeList.nil) ("x")),
          y := orZero (readSizeAttr (XNode.element ("svg") [(("viewBox"), ("0 0 100 50"))]
            XNodeList.nil) ("y")),
          width := readSizeAttr (XNode.element ("svg") [(("viewBox"), ("0 0 100 50"))]
            XNodeList.nil) ("width"),
          height := readSizeAttr (XNode.element ("svg") [(("viewBox"), ("0 0 100 50"))]
            XNodeList.nil) ("height"),
          error := none } :=
  viewbox_resolution_spec
    (XNode.element ("svg") [(("viewBox"), ("0 0 100 50"))] XNodeList.nil)
    (by decide) (by decide) (by decide)
